import Mathlib

/-!
Verification of the listener reconciliation slice of the AWS ALB ingress
controller (internal/alb/ls/listener.go).

The Go code is shallowly embedded: pointer-valued fields become `Option`,
nil-able slices become `Option (List _)`, fallible functions return
`Except String _`, and the cloud client is an explicit oracle whose
invocations are recorded in a trace of `CloudCall` values so that
"issues zero / exactly one ModifyListener call" is a provable statement.
-/

namespace ALB

/-- Embeds the elbv2.Certificate fields used by listener.go
(CertificateArn, IsDefault). -/
structure Certificate where
  CertificateArn : Option String
  IsDefault : Option Bool
deriving DecidableEq, Repr

/-- Embeds elbv2.FixedResponseConfig (payload of fixed-response actions). -/
structure FixedResponseConfig where
  ContentType : Option String
  MessageBody : Option String
  StatusCode : Option String
deriving DecidableEq, Repr

/-- Embeds the elbv2.Action fields relevant to this slice: the action type,
the target group ARN of a forward action, and the fixed-response payload.
Go field `Type` is written `Type_` (Lean keyword). -/
structure Action where
  Type_ : Option String
  TargetGroupArn : Option String
  FixedResponseConfig : Option FixedResponseConfig
deriving DecidableEq, Repr

/-- Embeds the elbv2.Listener fields used by listener.go. -/
structure Listener where
  ListenerArn : Option String
  Port : Option Int
  Protocol : Option String
  Certificates : Option (List Certificate)
  SslPolicy : Option String
  DefaultActions : Option (List Action)
deriving DecidableEq, Repr

/-- elbv2.ProtocolEnumHttps -/
def ProtocolEnumHttps : String := "HTTPS"

/-- elbv2.ActionTypeEnumForward -/
def ActionTypeEnumForward : String := "forward"

/-- Embeds intstr.IntOrString (the type of IngressBackend.ServicePort). -/
inductive IntOrString where
  | int (value : Int)
  | str (value : String)
deriving DecidableEq, Repr

/-- Embeds intstr.IntOrString.String(): the numeric value rendered in
decimal, or the string value verbatim. -/
def IntOrString.toGoString : IntOrString → String
  | .int value => toString value
  | .str value => value

/-- Embeds extensions.IngressBackend (service name plus service port). -/
structure IngressBackend where
  ServiceName : String
  ServicePort : IntOrString
deriving DecidableEq, Repr

/-- Embeds the part of extensions.IngressSpec used here: the optional
default backend. -/
structure IngressSpec where
  Backend : Option IngressBackend
deriving DecidableEq, Repr

/-- Embeds the part of extensions.Ingress used here. -/
structure Ingress where
  Spec : IngressSpec
deriving DecidableEq, Repr

/-- Embeds tg.TargetGroup: only the Arn field is read by listener.go. -/
structure TargetGroup where
  Arn : String
deriving DecidableEq, Repr

/-- Embeds tg.TargetGroupGroup: the backend-to-target-group map is modelled
as a lookup function (Go map semantics: missing key yields none). -/
structure TargetGroupGroup where
  TGByBackend : IngressBackend → Option TargetGroup

/-- Embeds the listener annotation values read here
(CertificateArn, SslPolicy). -/
structure ListenerAnnotationConfig where
  CertificateArn : Option String
  SslPolicy : Option String
deriving DecidableEq, Repr

/-- Embeds the action-annotation store: GetAction looks a custom action up
by backend service name and is fallible. The store itself is an external
collaborator, so it is carried as an abstract function. -/
structure ActionAnnotationConfig where
  GetAction : String → Except String Action

/-- Embeds the slice of annotations.Ingress read by listener.go. -/
structure IngressAnnos where
  Listener : ListenerAnnotationConfig
  Action : ActionAnnotationConfig

/-- Modelled from the spec: loadbalancer.PortData, the port descriptor
`{port, scheme}` of section 3 (its Go source is outside this slice). -/
structure PortData where
  Port : Int
  Scheme : String
deriving DecidableEq, Repr

/-- Embeds ls.ReconcileOptions. A `none` Instance selects the creation
path; `some` selects the update path. -/
structure ReconcileOptions where
  LBArn : String
  Ingress : Ingress
  IngressAnnos : IngressAnnos
  Port : PortData
  TGGroup : TargetGroupGroup
  Instance : Option Listener

/-- Modelled from the spec: action.Use, the reserved port-name sentinel
that selects a custom action from annotations (section 4.1: "a reserved
port-name convention"; its Go source is outside this slice). -/
def Use (port : String) : Bool := port == "use-annotation"

/-- Modelled from the spec: action.Default404Backend, the built-in fallback
backend substituted when the ingress has no default backend; it represents
"no route configured" and routes through the custom-action sentinel to a
fixed 404-equivalent response (section 4.1; its Go source is outside this
slice). -/
def Default404Backend : IngressBackend :=
  { ServiceName := "default-404-page", ServicePort := .str "use-annotation" }

/-- Modelled from the spec: util.DeepEqual, structural deep equality
(section 4.3: "deep structural equality including order"; its Go source is
outside this slice). -/
def DeepEqual {α : Type} [DecidableEq α] (x y : α) : Bool := decide (x = y)

/-- Embeds elbv2.CreateListenerInput as filled in by newLSInstance. -/
structure CreateListenerInput where
  LoadBalancerArn : Option String
  Port : Option Int
  Protocol : Option String
  Certificates : Option (List Certificate)
  SslPolicy : Option String
  DefaultActions : Option (List Action)
deriving DecidableEq, Repr

/-- Embeds elbv2.ModifyListenerInput as filled in by reconcileLSInstance. -/
structure ModifyListenerInput where
  ListenerArn : Option String
  Port : Option Int
  Protocol : Option String
  Certificates : Option (List Certificate)
  SslPolicy : Option String
  DefaultActions : Option (List Action)
deriving DecidableEq, Repr

/-- One recorded invocation of the cloud listener API. -/
inductive CloudCall where
  | create (input : CreateListenerInput)
  | modify (input : ModifyListenerInput)
deriving DecidableEq, Repr

/-- The cloud client collaborator (aws.CloudAPI restricted to the calls
made by listener.go), modelled as a deterministic oracle. -/
structure CloudAPI where
  CreateListenerWithContext : CreateListenerInput → Except String Listener
  ModifyListenerWithContext : ModifyListenerInput → Except String Listener

/-- The rules controller collaborator (rs.Controller), invoked with the
converged listener, the ingress, its annotations and the target groups. -/
structure RulesController where
  Reconcile : Listener → Ingress → IngressAnnos → TargetGroupGroup → Except String Unit

/-- Embeds ls.defaultController (the store field is unused in this slice). -/
structure defaultController where
  cloud : CloudAPI
  rulesController : RulesController

/-- Embeds ls.listenerConfig, the computed desired state of one listener. -/
structure listenerConfig where
  Port : Option Int
  Protocol : Option String
  SslPolicy : Option String
  Certificates : Option (List Certificate)
  DefaultActions : Option (List Action)
deriving DecidableEq, Repr

/-- Embeds defaultController.buildDefaultActions: resolve the ingress
default backend (substituting the 404 fallback if absent), then either a
custom action from annotations (sentinel port) or a forward action to the
target group looked up by backend; a missing target group is an error. -/
def defaultController.buildDefaultActions (_controller : defaultController)
    (options : ReconcileOptions) : Except String (List Action) :=
  let defaultBackend :=
    match options.Ingress.Spec.Backend with
    | none => Default404Backend
    | some backend => backend
  if Use defaultBackend.ServicePort.toGoString then
    match options.IngressAnnos.Action.GetAction defaultBackend.ServiceName with
    | .error err => .error err
    | .ok act => .ok [act]
  else
    match options.TGGroup.TGByBackend defaultBackend with
    | none =>
        .error ("unable to find targetGroup for backend " ++
          defaultBackend.ServiceName ++ ":" ++ defaultBackend.ServicePort.toGoString)
    | some targetGroup =>
        .ok [{ Type_ := some ActionTypeEnumForward,
               TargetGroupArn := some targetGroup.Arn,
               FixedResponseConfig := none }]

/-- Embeds defaultController.buildListenerConfig: port and protocol are
copied from the port descriptor; certificates and SSL policy are set only
when the scheme is HTTPS; default actions come from buildDefaultActions,
whose error is returned as-is. -/
def defaultController.buildListenerConfig (controller : defaultController)
    (options : ReconcileOptions) : Except String listenerConfig :=
  let config : listenerConfig :=
    { Port := some options.Port.Port
      Protocol := some options.Port.Scheme
      SslPolicy := none
      Certificates := none
      DefaultActions := none }
  let config :=
    if options.Port.Scheme == ProtocolEnumHttps then
      let config :=
        match options.IngressAnnos.Listener.CertificateArn with
        | some arn =>
            let certs : List Certificate :=
              [{ CertificateArn := some arn, IsDefault := some true }]
            { config with Certificates := some certs }
        | none => config
      match options.IngressAnnos.Listener.SslPolicy with
      | some _ => { config with SslPolicy := options.IngressAnnos.Listener.SslPolicy }
      | none => config
    else config
  match controller.buildDefaultActions options with
  | .error err => .error err
  | .ok actions => .ok { config with DefaultActions := some actions }

/-- Embeds defaultController.newLSInstance: one CreateListener call
carrying the full configuration. -/
def defaultController.newLSInstance (controller : defaultController)
    (lbArn : String) (config : listenerConfig) :
    Except String Listener × List CloudCall :=
  let input : CreateListenerInput :=
    { LoadBalancerArn := some lbArn
      Port := config.Port
      Protocol := config.Protocol
      Certificates := config.Certificates
      SslPolicy := config.SslPolicy
      DefaultActions := config.DefaultActions }
  match controller.cloud.CreateListenerWithContext input with
  | .error err => (.error err, [.create input])
  | .ok listener => (.ok listener, [.create input])

/-- Embeds defaultController.LSInstanceNeedsModification: a flag that is
set by any of five independent structural-equality checks (port, protocol,
certificates, SSL policy, default actions). -/
def defaultController.LSInstanceNeedsModification (instanceLS : Listener)
    (config : listenerConfig) : Bool :=
  let needModification := false
  let needModification :=
    if !DeepEqual instanceLS.Port config.Port then true else needModification
  let needModification :=
    if !DeepEqual instanceLS.Protocol config.Protocol then true else needModification
  let needModification :=
    if !DeepEqual instanceLS.Certificates config.Certificates then true else needModification
  let needModification :=
    if !DeepEqual instanceLS.SslPolicy config.SslPolicy then true else needModification
  let needModification :=
    if !DeepEqual instanceLS.DefaultActions config.DefaultActions then true else needModification
  needModification

/-- Embeds defaultController.reconcileLSInstance: if the instance needs
modification, issue one ModifyListener call carrying the full new
configuration; otherwise return the instance unchanged with no call. -/
def defaultController.reconcileLSInstance (controller : defaultController)
    (instanceLS : Listener) (config : listenerConfig) :
    Except String Listener × List CloudCall :=
  if defaultController.LSInstanceNeedsModification instanceLS config then
    let input : ModifyListenerInput :=
      { ListenerArn := instanceLS.ListenerArn
        Port := config.Port
        Protocol := config.Protocol
        Certificates := config.Certificates
        SslPolicy := config.SslPolicy
        DefaultActions := config.DefaultActions }
    match controller.cloud.ModifyListenerWithContext input with
    | .error err => (.error err, [.modify input])
    | .ok output => (.ok output, [.modify input])
  else (.ok instanceLS, [])

/-- The create-or-update block inlined in defaultController.Reconcile
(selection on options.Instance, with the per-branch error wrapping). -/
def defaultController.reconcileListenerInstanceStage
    (controller : defaultController) (options : ReconcileOptions)
    (config : listenerConfig) : Except String Listener × List CloudCall :=
  match options.Instance with
  | none =>
      match controller.newLSInstance options.LBArn config with
      | (.error err, calls) =>
          (.error ("failed to create listener due to " ++ err), calls)
      | (.ok listener, calls) => (.ok listener, calls)
  | some instanceLS =>
      match controller.reconcileLSInstance instanceLS config with
      | (.error err, calls) =>
          (.error ("failed to reconcile listener due to " ++ err), calls)
      | (.ok listener, calls) => (.ok listener, calls)

/-- Embeds defaultController.Reconcile: build the configuration, create or
update the listener, then reconcile rules on the converged listener; the
function returns only an error status (Go signature: `error`). -/
def defaultController.Reconcile (controller : defaultController)
    (options : ReconcileOptions) : Except String Unit × List CloudCall :=
  match controller.buildListenerConfig options with
  | .error err =>
      (.error ("failed to build listener config due to " ++ err), [])
  | .ok config =>
      match controller.reconcileListenerInstanceStage options config with
      | (.error err, calls) => (.error err, calls)
      | (.ok instanceLS, calls) =>
          match controller.rulesController.Reconcile instanceLS options.Ingress
              options.IngressAnnos options.TGGroup with
          | .error err =>
              (.error ("failed to reconcile rules due to " ++ err), calls)
          | .ok _ => (.ok (), calls)

/-! ### Concrete fixtures for the closed witness theorems -/

/-- A resolved target group. -/
def tgEx : TargetGroup := { Arn := "tg-1" }

/-- A backend present in the target-group map. -/
def backendEx : IngressBackend := { ServiceName := "svcA", ServicePort := .int 8080 }

/-- A backend absent from the target-group map. -/
def backendMissing : IngressBackend := { ServiceName := "svcB", ServicePort := .int 9090 }

/-- The forward action the builder produces for `backendEx`. -/
def actionFwdEx : Action :=
  { Type_ := some "forward", TargetGroupArn := some "tg-1", FixedResponseConfig := none }

/-- A fixed-response 404 action, as the annotation store would return for
the fallback backend. -/
def action404Ex : Action :=
  { Type_ := some "fixed-response", TargetGroupArn := none,
    FixedResponseConfig :=
      some { ContentType := some "text/plain", MessageBody := none, StatusCode := some "404" } }

/-- An annotation set with no TLS values; its action store serves only the
fallback 404 backend. -/
def annosPlain : IngressAnnos :=
  { Listener := { CertificateArn := none, SslPolicy := none }
    Action := { GetAction := fun name =>
      if name = "default-404-page" then .ok action404Ex else .error "no action annotation" } }

/-- An annotation set with certificate and SSL-policy values. -/
def annosTLS : IngressAnnos :=
  { Listener := { CertificateArn := some "cert-1", SslPolicy := some "ELBSecurityPolicy-2016-08" }
    Action := annosPlain.Action }

/-- An annotation set whose action store always fails. -/
def annosBadAction : IngressAnnos :=
  { Listener := annosPlain.Listener
    Action := { GetAction := fun _ => .error "failed to resolve action" } }

/-- A target-group map holding exactly `backendEx`. -/
def tgGroupEx : TargetGroupGroup :=
  { TGByBackend := fun b => if b = backendEx then some tgEx else none }

/-- An observed listener equal to the configuration built from
`optsUpdateSame` (HTTP port 80, forward to tg-1). -/
def listenerEx : Listener :=
  { ListenerArn := some "arn-ls-1", Port := some 80, Protocol := some "HTTP",
    Certificates := none, SslPolicy := none, DefaultActions := some [actionFwdEx] }

/-- A cloud oracle that echoes the requested configuration back. -/
def cloudEx : CloudAPI :=
  { CreateListenerWithContext := fun input =>
      .ok { ListenerArn := some "arn-ls-new", Port := input.Port, Protocol := input.Protocol,
            Certificates := input.Certificates, SslPolicy := input.SslPolicy,
            DefaultActions := input.DefaultActions }
    ModifyListenerWithContext := fun input =>
      .ok { ListenerArn := input.ListenerArn, Port := input.Port, Protocol := input.Protocol,
            Certificates := input.Certificates, SslPolicy := input.SslPolicy,
            DefaultActions := input.DefaultActions } }

/-- A rules controller that always succeeds. -/
def rulesOk : RulesController := { Reconcile := fun _ _ _ _ => .ok () }

/-- A rules controller that always fails. -/
def rulesFail : RulesController := { Reconcile := fun _ _ _ _ => .error "rules boom" }

/-- Controller fixture whose collaborators all succeed. -/
def ctlOk : defaultController := { cloud := cloudEx, rulesController := rulesOk }

/-- Controller fixture whose rule reconciliation fails. -/
def ctlRulesFail : defaultController := { cloud := cloudEx, rulesController := rulesFail }

/-- Request: HTTP port 80, backend `svcA:8080`, existing listener equal to
the desired configuration. -/
def optsUpdateSame : ReconcileOptions :=
  { LBArn := "arn-lb-1"
    Ingress := { Spec := { Backend := some backendEx } }
    IngressAnnos := annosPlain
    Port := { Port := 80, Scheme := "HTTP" }
    TGGroup := tgGroupEx
    Instance := some listenerEx }

/-- Same request but the existing listener sits on port 8080. -/
def optsUpdateDrift : ReconcileOptions :=
  { optsUpdateSame with Instance := some { listenerEx with Port := some 8080 } }

/-- Same request with no existing listener (creation path). -/
def optsCreate : ReconcileOptions :=
  { optsUpdateSame with Instance := none }

/-- Request whose ingress has no default backend. -/
def optsNoBackend : ReconcileOptions :=
  { optsUpdateSame with Ingress := { Spec := { Backend := none } } }

/-- Request whose backend is absent from the target-group map. -/
def optsUnresolved : ReconcileOptions :=
  { optsUpdateSame with Ingress := { Spec := { Backend := some backendMissing } } }

/-- HTTPS request with certificate and SSL-policy annotations, no existing
listener. -/
def optsHTTPS : ReconcileOptions :=
  { optsCreate with
      IngressAnnos := annosTLS
      Port := { Port := 443, Scheme := "HTTPS" } }

/-- A backend whose port is the custom-action sentinel. -/
def backendSentinel : IngressBackend :=
  { ServiceName := "svcA", ServicePort := .str "use-annotation" }

/-- Request whose default backend selects the custom-action sentinel while
the action store fails. -/
def optsBadAction : ReconcileOptions :=
  { optsUpdateSame with
      Ingress := { Spec := { Backend := some backendSentinel } }
      IngressAnnos := annosBadAction }

/-- The configuration built from `optsUpdateSame` (and `optsUpdateDrift`,
`optsCreate`). -/
def configEx : listenerConfig :=
  { Port := some 80, Protocol := some "HTTP", SslPolicy := none,
    Certificates := none, DefaultActions := some [actionFwdEx] }

/-- The certificate built from the `annosTLS` certificate annotation. -/
def certEx : Certificate := { CertificateArn := some "cert-1", IsDefault := some true }

/-- The configuration built from `optsHTTPS`. -/
def configHTTPSEx : listenerConfig :=
  { Port := some 443, Protocol := some "HTTPS",
    SslPolicy := some "ELBSecurityPolicy-2016-08",
    Certificates := some [certEx], DefaultActions := some [actionFwdEx] }

/-- The CreateListener input issued for `optsCreate`. -/
def createInputEx : CreateListenerInput :=
  { LoadBalancerArn := some "arn-lb-1", Port := some 80, Protocol := some "HTTP",
    Certificates := none, SslPolicy := none, DefaultActions := some [actionFwdEx] }

/-- The listener `cloudEx` returns for `createInputEx`. -/
def listenerCreatedEx : Listener :=
  { ListenerArn := some "arn-ls-new", Port := some 80, Protocol := some "HTTP",
    Certificates := none, SslPolicy := none, DefaultActions := some [actionFwdEx] }

/-- The ModifyListener input issued for `optsUpdateDrift`. -/
def modifyInputEx : ModifyListenerInput :=
  { ListenerArn := some "arn-ls-1", Port := some 80, Protocol := some "HTTP",
    Certificates := none, SslPolicy := none, DefaultActions := some [actionFwdEx] }

/-! ### Helper lemmas -/

/-- The drift flag is set exactly when one of the five fields differs. -/
theorem LSInstanceNeedsModification_iff (instanceLS : Listener) (config : listenerConfig) :
    defaultController.LSInstanceNeedsModification instanceLS config = true ↔
      (instanceLS.Port ≠ config.Port ∨ instanceLS.Protocol ≠ config.Protocol ∨
       instanceLS.Certificates ≠ config.Certificates ∨
       instanceLS.SslPolicy ≠ config.SslPolicy ∨
       instanceLS.DefaultActions ≠ config.DefaultActions) := by
  unfold defaultController.LSInstanceNeedsModification DeepEqual
  rcases eq_or_ne instanceLS.Port config.Port with h1 | h1 <;>
    rcases eq_or_ne instanceLS.Protocol config.Protocol with h2 | h2 <;>
      rcases eq_or_ne instanceLS.Certificates config.Certificates with h3 | h3 <;>
        rcases eq_or_ne instanceLS.SslPolicy config.SslPolicy with h4 | h4 <;>
          rcases eq_or_ne instanceLS.DefaultActions config.DefaultActions with h5 | h5 <;>
            simp [h1, h2, h3, h4, h5]

/-- The drift flag is false exactly when all five fields agree. -/
theorem LSInstanceNeedsModification_eq_false (instanceLS : Listener) (config : listenerConfig)
    (hPort : instanceLS.Port = config.Port)
    (hProto : instanceLS.Protocol = config.Protocol)
    (hCerts : instanceLS.Certificates = config.Certificates)
    (hSsl : instanceLS.SslPolicy = config.SslPolicy)
    (hActs : instanceLS.DefaultActions = config.DefaultActions) :
    defaultController.LSInstanceNeedsModification instanceLS config = false := by
  cases h : defaultController.LSInstanceNeedsModification instanceLS config
  · rfl
  · have := (LSInstanceNeedsModification_iff instanceLS config).mp h
    simp [hPort, hProto, hCerts, hSsl, hActs] at this

/-! ### Claims -/

/-- C1: when the existing listener's port, protocol, certificates, SSL
policy and default actions are all structurally equal to the built
configuration, Reconcile issues zero ModifyListener calls and the update
stage returns the existing instance unchanged. -/
theorem C1_no_drift_no_update_call (controller : defaultController)
    (options : ReconcileOptions) (instanceLS : Listener) (config : listenerConfig)
    (hb : controller.buildListenerConfig options = .ok config)
    (hi : options.Instance = some instanceLS)
    (hPort : instanceLS.Port = config.Port)
    (hProto : instanceLS.Protocol = config.Protocol)
    (hCerts : instanceLS.Certificates = config.Certificates)
    (hSsl : instanceLS.SslPolicy = config.SslPolicy)
    (hActs : instanceLS.DefaultActions = config.DefaultActions) :
    controller.reconcileLSInstance instanceLS config = (.ok instanceLS, []) ∧
      (controller.Reconcile options).2 = [] := by
  have hnm := LSInstanceNeedsModification_eq_false instanceLS config
    hPort hProto hCerts hSsl hActs
  have hstage : controller.reconcileLSInstance instanceLS config = (.ok instanceLS, []) := by
    simp [defaultController.reconcileLSInstance, hnm]
  refine ⟨hstage, ?_⟩
  simp only [defaultController.Reconcile, hb]
  simp only [defaultController.reconcileListenerInstanceStage, hi, hstage]
  cases hr : controller.rulesController.Reconcile instanceLS options.Ingress
      options.IngressAnnos options.TGGroup <;> simp [hr]

/-- C1 witness: `optsUpdateSame` carries a listener equal to its built
configuration; no cloud call is recorded. -/
theorem C1_witness :
    ALB.ctlOk.reconcileLSInstance listenerEx configEx = (.ok listenerEx, []) ∧
      (ALB.ctlOk.Reconcile optsUpdateSame).2 = [] :=
  C1_no_drift_no_update_call ctlOk optsUpdateSame listenerEx configEx
    rfl rfl rfl rfl rfl rfl rfl

/-- C2: when at least one of the five fields differs between the existing
listener and the built configuration, Reconcile issues exactly one
ModifyListener call, and that call carries the full new configuration. -/
theorem C2_drift_single_full_update_call (controller : defaultController)
    (options : ReconcileOptions) (instanceLS : Listener) (config : listenerConfig)
    (hb : controller.buildListenerConfig options = .ok config)
    (hi : options.Instance = some instanceLS)
    (hdiff : instanceLS.Port ≠ config.Port ∨ instanceLS.Protocol ≠ config.Protocol ∨
      instanceLS.Certificates ≠ config.Certificates ∨
      instanceLS.SslPolicy ≠ config.SslPolicy ∨
      instanceLS.DefaultActions ≠ config.DefaultActions) :
    (controller.Reconcile options).2 =
      [CloudCall.modify
        { ListenerArn := instanceLS.ListenerArn, Port := config.Port,
          Protocol := config.Protocol, Certificates := config.Certificates,
          SslPolicy := config.SslPolicy, DefaultActions := config.DefaultActions }] := by
  have hnm : defaultController.LSInstanceNeedsModification instanceLS config = true :=
    (LSInstanceNeedsModification_iff instanceLS config).mpr hdiff
  simp only [defaultController.Reconcile, hb]
  simp only [defaultController.reconcileListenerInstanceStage, hi]
  simp only [defaultController.reconcileLSInstance, hnm, if_true]
  cases hm : controller.cloud.ModifyListenerWithContext
      { ListenerArn := instanceLS.ListenerArn, Port := config.Port,
        Protocol := config.Protocol, Certificates := config.Certificates,
        SslPolicy := config.SslPolicy, DefaultActions := config.DefaultActions } with
  | error err => simp
  | ok output =>
      cases hr : controller.rulesController.Reconcile output options.Ingress
          options.IngressAnnos options.TGGroup <;> simp [hr]

/-- C2 witness: `optsUpdateDrift` carries a listener on port 8080 while the
configuration wants port 80; exactly one full-configuration modify call is
recorded. -/
theorem C2_witness :
    (ALB.ctlOk.Reconcile optsUpdateDrift).2 =
      [CloudCall.modify
        { ListenerArn := some "arn-ls-1", Port := some 80,
          Protocol := some "HTTP", Certificates := none,
          SslPolicy := none, DefaultActions := some [actionFwdEx] }] :=
  C2_drift_single_full_update_call ctlOk optsUpdateDrift
    { listenerEx with Port := some 8080 } configEx
    rfl rfl (Or.inl (by decide))

/-- C3: LSInstanceNeedsModification returns true exactly when at least one
of the five fields (port, protocol, certificate set, SSL policy, action
list) is not structurally equal between the observed listener and the
built configuration. -/
theorem C3_needsModification_iff_field_differs
    (instanceLS : Listener) (config : listenerConfig) :
    defaultController.LSInstanceNeedsModification instanceLS config = true ↔
      (instanceLS.Port ≠ config.Port ∨ instanceLS.Protocol ≠ config.Protocol ∨
       instanceLS.Certificates ≠ config.Certificates ∨
       instanceLS.SslPolicy ≠ config.SslPolicy ∨
       instanceLS.DefaultActions ≠ config.DefaultActions) :=
  LSInstanceNeedsModification_iff instanceLS config

/-- C4: whenever the default-actions builder succeeds the action list is
non-empty, and when the ingress has no default backend the fallback 404
backend is the one resolved (through the annotation store, under the
fallback backend's service name). -/
theorem C4_default_actions_nonempty (controller : defaultController)
    (options : ReconcileOptions) (actions : List Action)
    (h : controller.buildDefaultActions options = .ok actions) :
    actions ≠ [] ∧
      (options.Ingress.Spec.Backend = none →
        ∃ act, options.IngressAnnos.Action.GetAction Default404Backend.ServiceName = .ok act ∧
          actions = [act]) := by
  cases hB : options.Ingress.Spec.Backend with
  | none =>
      simp only [defaultController.buildDefaultActions, hB] at h
      rw [show Use Default404Backend.ServicePort.toGoString = true from rfl, if_pos rfl] at h
      cases hg : options.IngressAnnos.Action.GetAction Default404Backend.ServiceName with
      | error err => rw [hg] at h; cases h
      | ok act =>
          rw [hg] at h
          simp only [Except.ok.injEq] at h
          subst h
          exact ⟨by simp, fun _ => ⟨act, rfl, rfl⟩⟩
  | some backend =>
      refine ⟨?_, by simp [hB]⟩
      simp only [defaultController.buildDefaultActions, hB] at h
      by_cases hu : Use backend.ServicePort.toGoString = true
      · rw [if_pos hu] at h
        cases hg : options.IngressAnnos.Action.GetAction backend.ServiceName with
        | error err => rw [hg] at h; cases h
        | ok act =>
            rw [hg] at h
            simp only [Except.ok.injEq] at h
            subst h
            simp
      · rw [if_neg hu] at h
        cases ht : options.TGGroup.TGByBackend backend with
        | none => rw [ht] at h; cases h
        | some targetGroup =>
            rw [ht] at h
            simp only [Except.ok.injEq] at h
            subst h
            simp

/-- C4 witness: `optsNoBackend` has no default backend; the builder returns
the single custom action stored for the fallback 404 backend. -/
theorem C4_witness :
    ([action404Ex] : List Action) ≠ [] ∧
      (optsNoBackend.Ingress.Spec.Backend = none →
        ∃ act, optsNoBackend.IngressAnnos.Action.GetAction Default404Backend.ServiceName =
            .ok act ∧ [action404Ex] = [act]) :=
  C4_default_actions_nonempty ctlOk optsNoBackend [action404Ex] rfl

/-- C5: a default backend that does not use the custom-action sentinel and
is absent from the target-group map makes the builder fail with an error
naming the backend's service name and port, and the builder never returns
an action list for such a request. -/
theorem C5_unresolved_backend_is_error (controller : defaultController)
    (options : ReconcileOptions) (backend : IngressBackend)
    (hB : options.Ingress.Spec.Backend = some backend)
    (hUse : Use backend.ServicePort.toGoString = false)
    (hTG : options.TGGroup.TGByBackend backend = none) :
    controller.buildDefaultActions options =
      .error ("unable to find targetGroup for backend " ++ backend.ServiceName ++ ":" ++
        backend.ServicePort.toGoString) ∧
      ∀ actions : List Action, controller.buildDefaultActions options ≠ .ok actions := by
  have hmain : controller.buildDefaultActions options =
      .error ("unable to find targetGroup for backend " ++ backend.ServiceName ++ ":" ++
        backend.ServicePort.toGoString) := by
    simp only [defaultController.buildDefaultActions, hB, hUse, Bool.false_eq_true,
      if_false, hTG]
  refine ⟨hmain, fun actions hok => ?_⟩
  rw [hmain] at hok
  cases hok

/-- C5 witness: `optsUnresolved` names `svcB:9090`, which is absent from
the target-group map. -/
theorem C5_witness :
    ALB.ctlOk.buildDefaultActions optsUnresolved =
        .error "unable to find targetGroup for backend svcB:9090" ∧
      ∀ actions : List Action, ALB.ctlOk.buildDefaultActions optsUnresolved ≠ .ok actions :=
  C5_unresolved_backend_is_error ctlOk optsUnresolved backendMissing rfl rfl rfl

/-- C6: the built configuration carries certificates or SSL policy only on
HTTPS requests; on HTTPS the certificate annotation, if present, becomes
the single default certificate (otherwise certificates are omitted) and
the SSL policy is copied verbatim from the annotations. -/
theorem C6_tls_fields_only_on_https (controller : defaultController)
    (options : ReconcileOptions) (config : listenerConfig)
    (h : controller.buildListenerConfig options = .ok config) :
    ((config.Certificates ≠ none ∨ config.SslPolicy ≠ none) →
      options.Port.Scheme = ProtocolEnumHttps) ∧
    (options.Port.Scheme = ProtocolEnumHttps →
      (match options.IngressAnnos.Listener.CertificateArn with
       | some arn =>
          config.Certificates = some [{ CertificateArn := some arn, IsDefault := some true }]
       | none => config.Certificates = none) ∧
      config.SslPolicy = options.IngressAnnos.Listener.SslPolicy) := by
  by_cases hs : options.Port.Scheme = ProtocolEnumHttps
  · simp only [defaultController.buildListenerConfig, hs, beq_self_eq_true, if_pos] at h
    cases hg : controller.buildDefaultActions options with
    | error err => rw [hg] at h; cases h
    | ok actions =>
        rw [hg] at h
        cases hc : options.IngressAnnos.Listener.CertificateArn with
        | none =>
            cases hp : options.IngressAnnos.Listener.SslPolicy with
            | none =>
                simp only [hc, hp, Except.ok.injEq] at h
                subst h
                simp [hs, hc, hp]
            | some policy =>
                simp only [hc, hp, Except.ok.injEq] at h
                subst h
                simp [hs, hc, hp]
        | some arn =>
            cases hp : options.IngressAnnos.Listener.SslPolicy with
            | none =>
                simp only [hc, hp, Except.ok.injEq] at h
                subst h
                simp [hs, hc, hp]
            | some policy =>
                simp only [hc, hp, Except.ok.injEq] at h
                subst h
                simp [hs, hc, hp]
  · have hsb : (options.Port.Scheme == ProtocolEnumHttps) = false := by
      simpa using hs
    simp only [defaultController.buildListenerConfig, hsb, Bool.false_eq_true, if_false] at h
    cases hg : controller.buildDefaultActions options with
    | error err => rw [hg] at h; cases h
    | ok actions =>
        rw [hg] at h
        simp only [Except.ok.injEq] at h
        subst h
        exact ⟨by simp, fun hcontra => absurd hcontra hs⟩

/-- C6 witness: `optsHTTPS` is an HTTPS request with certificate and
SSL-policy annotations; the built configuration wraps the certificate as
the single default and copies the policy. -/
theorem C6_witness :
    ((configHTTPSEx.Certificates ≠ none ∨ configHTTPSEx.SslPolicy ≠ none) →
      optsHTTPS.Port.Scheme = ProtocolEnumHttps) ∧
    (optsHTTPS.Port.Scheme = ProtocolEnumHttps →
      (match optsHTTPS.IngressAnnos.Listener.CertificateArn with
       | some arn =>
          configHTTPSEx.Certificates =
            some [{ CertificateArn := some arn, IsDefault := some true }]
       | none => configHTTPSEx.Certificates = none) ∧
      configHTTPSEx.SslPolicy = optsHTTPS.IngressAnnos.Listener.SslPolicy) :=
  C6_tls_fields_only_on_https ctlOk optsHTTPS configHTTPSEx rfl

/-- C7 counterexample: on a fully successful creation-path run, Reconcile
hands the caller only a unit success value — the resulting listener is not
returned (the Go signature is `Reconcile(...) error`). -/
theorem C7_counterexample : (ALB.ctlOk.Reconcile optsCreate).1 = Except.ok () := rfl

/-- C7 (amended): on a request whose configuration build and listener
create/update stage succeed, Reconcile forwards the resulting listener
(created, updated, or unchanged) to the rule reconciler — whose outcome
alone decides the result — and returns unit on success, not the
listener. -/
theorem C7_success_forwards_listener_returns_unit (controller : defaultController)
    (options : ReconcileOptions) (config : listenerConfig) (listener : Listener)
    (calls : List CloudCall)
    (hb : controller.buildListenerConfig options = .ok config)
    (hs : controller.reconcileListenerInstanceStage options config = (.ok listener, calls)) :
    controller.Reconcile options =
      ((match controller.rulesController.Reconcile listener options.Ingress
          options.IngressAnnos options.TGGroup with
        | .error err => .error ("failed to reconcile rules due to " ++ err)
        | .ok _ => .ok ()), calls) := by
  simp only [defaultController.Reconcile, hb, hs]
  cases hr : controller.rulesController.Reconcile listener options.Ingress
      options.IngressAnnos options.TGGroup <;> simp [hr]

/-- C7 witness: the creation-path request `optsCreate` converges with one
create call and yields a unit success. -/
theorem C7_witness :
    ALB.ctlOk.Reconcile optsCreate = (Except.ok (), [CloudCall.create createInputEx]) :=
  C7_success_forwards_listener_returns_unit ctlOk optsCreate configEx listenerCreatedEx
    [CloudCall.create createInputEx] rfl rfl

/-- C8 counterexample: when the action store fails, the configuration
builder itself returns the resolver error verbatim — unwrapped. -/
theorem C8_counterexample :
    ALB.ctlOk.buildListenerConfig optsBadAction =
      Except.error "failed to resolve action" := rfl

/-- C8 (amended): the configuration builder propagates a default-actions
resolver error unchanged (raw); the build-stage context tag is added one
level up, by Reconcile, before the error reaches the caller. -/
theorem C8_builder_raw_reconcile_wraps (controller : defaultController)
    (options : ReconcileOptions) (err : String)
    (h : controller.buildDefaultActions options = .error err) :
    controller.buildListenerConfig options = .error err ∧
      controller.Reconcile options =
        (.error ("failed to build listener config due to " ++ err), []) := by
  have hb : controller.buildListenerConfig options = .error err := by
    simp only [defaultController.buildListenerConfig, h]
  exact ⟨hb, by simp only [defaultController.Reconcile, hb]⟩

/-- C8 witness: `optsBadAction` makes the resolver fail; the builder
returns the raw message and Reconcile returns it wrapped. -/
theorem C8_witness :
    ALB.ctlOk.buildListenerConfig optsBadAction = Except.error "failed to resolve action" ∧
      ALB.ctlOk.Reconcile optsBadAction =
        (.error "failed to build listener config due to failed to resolve action", []) :=
  C8_builder_raw_reconcile_wraps ctlOk optsBadAction "failed to resolve action" rfl

/-- C9: when the create/update stage has succeeded and rule reconciliation
fails, Reconcile surfaces only the wrapped rule-reconciliation error and
the cloud-call trace is exactly the stage's trace — no compensating call
follows the committed listener mutation. -/
theorem C9_rules_failure_no_rollback (controller : defaultController)
    (options : ReconcileOptions) (config : listenerConfig) (listener : Listener)
    (calls : List CloudCall) (err : String)
    (hb : controller.buildListenerConfig options = .ok config)
    (hs : controller.reconcileListenerInstanceStage options config = (.ok listener, calls))
    (hr : controller.rulesController.Reconcile listener options.Ingress options.IngressAnnos
        options.TGGroup = .error err) :
    controller.Reconcile options =
      (.error ("failed to reconcile rules due to " ++ err), calls) := by
  simp only [defaultController.Reconcile, hb, hs, hr]

/-- C9 witness: under `ctlRulesFail` the drifted update commits one modify
call, then only the rules error is surfaced and the trace still holds
exactly that one call. -/
theorem C9_witness :
    ALB.ctlRulesFail.Reconcile optsUpdateDrift =
      (.error "failed to reconcile rules due to rules boom",
        [CloudCall.modify modifyInputEx]) :=
  C9_rules_failure_no_rollback ctlRulesFail optsUpdateDrift configEx listenerEx
    [CloudCall.modify modifyInputEx] "rules boom" rfl rfl rfl

/-- C10: whenever the default-actions builder succeeds, the returned list
has exactly one element, on all three success paths (custom action,
forward action, fallback). -/
theorem C10_default_actions_singleton (controller : defaultController)
    (options : ReconcileOptions) (actions : List Action)
    (h : controller.buildDefaultActions options = .ok actions) :
    actions.length = 1 := by
  cases hB : options.Ingress.Spec.Backend with
  | none =>
      simp only [defaultController.buildDefaultActions, hB] at h
      rw [show Use Default404Backend.ServicePort.toGoString = true from rfl, if_pos rfl] at h
      cases hg : options.IngressAnnos.Action.GetAction Default404Backend.ServiceName with
      | error err => rw [hg] at h; cases h
      | ok act => rw [hg] at h; simp only [Except.ok.injEq] at h; subst h; rfl
  | some backend =>
      simp only [defaultController.buildDefaultActions, hB] at h
      by_cases hu : Use backend.ServicePort.toGoString = true
      · rw [if_pos hu] at h
        cases hg : options.IngressAnnos.Action.GetAction backend.ServiceName with
        | error err => rw [hg] at h; cases h
        | ok act => rw [hg] at h; simp only [Except.ok.injEq] at h; subst h; rfl
      · rw [if_neg hu] at h
        cases ht : options.TGGroup.TGByBackend backend with
        | none => rw [ht] at h; cases h
        | some targetGroup =>
            rw [ht] at h; simp only [Except.ok.injEq] at h; subst h; rfl

/-- C10 witness: the forward action built for `optsUpdateSame` is a
one-element list. -/
theorem C10_witness : ([actionFwdEx] : List Action).length = 1 :=
  C10_default_actions_singleton ctlOk optsUpdateSame [actionFwdEx] rfl

end ALB
